import Mathlib

/-!
# Verification of the bus-ticket booking core

Shallow embedding of `BUS_TICKET_BOOKING_SYSTEM_SOURSE_CODE.py`: the SQLite-backed
functions `add_bus`, `book_ticket` and `view_bookings`, together with the two tables
`buses` and `tickets`.  The Gradio widget layer is out of scope; the UI delivers the
text fields as strings and the `gr.Number` fields as a float or `None`, which the
`Value` type below captures.
-/

namespace BusBooking

/-- A Python value as it can arrive in `total_seats` / `seat_number`
(`gr.Number` yields a float or `None`; a string is also modelled since the
functions themselves accept one). -/
inductive Value where
  | pynone
  | str (s : String)
  | num (q : Rat)
deriving DecidableEq, Repr

/-- Python truthiness of the modelled values: `None` is falsy, a string is truthy
iff non-empty, a number is truthy iff non-zero. -/
def truthy : Value → Prop
  | .pynone => False
  | .str s => s ≠ ""
  | .num q => q ≠ 0

instance (v : Value) : Decidable (truthy v) :=
  match v with
  | .pynone => isFalse (fun h => h)
  | .str s => inferInstanceAs (Decidable (s ≠ ""))
  | .num q => inferInstanceAs (Decidable (q ≠ 0))

/-- The two Python exception classes that the source's `except` clauses distinguish. -/
inductive PyErr where
  | typeError
  | valueError
deriving DecidableEq, Repr

/-- Python `str.strip()` with no argument: drop leading and trailing whitespace.
(`Char.isWhitespace` covers the ASCII whitespace the claims exercise; the exotic
Unicode space characters of the full Python semantics are not modelled.) -/
def pyStrip (s : String) : String :=
  String.mk (((s.data.dropWhile Char.isWhitespace).reverse.dropWhile Char.isWhitespace).reverse)

/-- Numeric value of a list of decimal digits. -/
def digitsVal (l : List Char) : Nat :=
  l.foldl (fun a c => a * 10 + (c.toNat - 48)) 0

/-- Python `float(string)` on the plain decimal forms
`[ws][+|-]digits[.digits][ws]` and `[ws][+|-].digits[ws]`.
The exponent/`inf`/`nan`/underscore forms of the full grammar are not modelled
(no claim exercises them); on the modelled forms this returns `none` exactly when
Python raises `ValueError`, in particular on the empty string. -/
def parsePyFloat (s : String) : Option Rat :=
  let l := (pyStrip s).data
  let p : Bool × List Char :=
    match l with
    | '-' :: rest => (true, rest)
    | '+' :: rest => (false, rest)
    | _ => (false, l)
  let ip := p.2.takeWhile Char.isDigit
  let rest := p.2.dropWhile Char.isDigit
  let v : Option Rat :=
    match rest with
    | [] => if ip.isEmpty then none else some (digitsVal ip : Rat)
    | '.' :: fp =>
      if fp.all Char.isDigit && !(ip.isEmpty && fp.isEmpty) then
        some ((digitsVal ip : Rat) + (digitsVal fp : Rat) / ((10 : Rat) ^ fp.length))
      else none
    | _ => none
  v.map (fun x => if p.1 then -x else x)

/-- Python `int(string)`: optional surrounding whitespace, optional sign, decimal
digits (underscore separators of the full grammar are not modelled; no claim
exercises them).  `none` models `ValueError`, e.g. on `"3.5"` or `""`. -/
def parsePyInt (s : String) : Option Int :=
  let l := (pyStrip s).data
  let p : Bool × List Char :=
    match l with
    | '-' :: rest => (true, rest)
    | '+' :: rest => (false, rest)
    | _ => (false, l)
  if !p.2.isEmpty && p.2.all Char.isDigit then
    some (if p.1 then -(digitsVal p.2 : Int) else (digitsVal p.2 : Int))
  else none

/-- Truncation toward zero, the behaviour of Python `int()` on a float. -/
def ratTrunc (q : Rat) : Int :=
  if 0 ≤ q then q.floor else -((-q).floor)

/-- Python `float(x)` on a modelled value: `TypeError` on `None`, identity on a
number, string parsing otherwise. -/
def pyFloat : Value → Except PyErr Rat
  | .pynone => .error .typeError
  | .num q => .ok q
  | .str s =>
    match parsePyFloat s with
    | some q => .ok q
    | none => .error .valueError

/-- Python `int(x)` on a modelled value: `TypeError` on `None`, truncation toward
zero on a number, integer-literal parsing on a string. -/
def pyInt : Value → Except PyErr Int
  | .pynone => .error .typeError
  | .num q => .ok (ratTrunc q)
  | .str s =>
    match parsePyInt s with
    | some n => .ok n
    | none => .error .valueError

/-- A row of the `buses` table:
`id INTEGER PRIMARY KEY AUTOINCREMENT, bus_name TEXT NOT NULL UNIQUE,
from_city TEXT NOT NULL, to_city TEXT NOT NULL,
total_seats INTEGER NOT NULL CHECK(total_seats > 0)`. -/
structure Bus where
  id : Nat
  bus_name : String
  from_city : String
  to_city : String
  total_seats : Int
deriving DecidableEq, Repr

/-- A row of the `tickets` table:
`id INTEGER PRIMARY KEY AUTOINCREMENT, passenger_name TEXT NOT NULL,
bus_id INTEGER NOT NULL, travel_date TEXT NOT NULL, seat_number INTEGER NOT NULL,
UNIQUE(bus_id, travel_date, seat_number)`. -/
structure Ticket where
  id : Nat
  passenger_name : String
  bus_id : Nat
  travel_date : String
  seat_number : Int
deriving DecidableEq, Repr

/-- The persistent store `bus_booking.db`: the two tables in row order, plus the
next `AUTOINCREMENT` value of each `id` column. -/
structure DB where
  buses : List Bus
  tickets : List Ticket
  nextBusId : Nat
  nextTicketId : Nat
deriving DecidableEq, Repr

/-- A freshly created database: both tables empty, `AUTOINCREMENT` counters at 1. -/
def emptyDB : DB := ⟨[], [], 1, 1⟩

/-- The possible return messages of `add_bus`, one constructor per `return`
statement; `addMessage` below renders each to the exact Python string. -/
inductive AddResult where
  | fieldsRequired
  | notValidNumber
  | notPositive
  | duplicateName
  | added (bus_name : String) (seats : Int)
deriving DecidableEq, Repr

/-- The exact strings returned by the Python `add_bus`. -/
def addMessage : AddResult → String
  | .fieldsRequired => "❌ All fields are required."
  | .notValidNumber => "❌ Total seats must be a valid number."
  | .notPositive => "❌ Total seats must be a positive integer."
  | .duplicateName => "❌ That bus name already exists."
  | .added bus_name seats => s!"✅ Bus \x27{bus_name}\x27 added with {seats} seats."

/-- Whether an `add_bus` outcome is the success message. -/
def AddResult.isSuccess : AddResult → Bool
  | .added _ _ => true
  | _ => false

/-- The spec's `ValidationError` class among `add_bus` outcomes: missing field,
non-numeric capacity, non-positive capacity. -/
def AddResult.isValidationError : AddResult → Bool
  | .fieldsRequired => true
  | .notValidNumber => true
  | .notPositive => true
  | _ => false

/-- `add_bus(bus_name, from_city, to_city, total_seats)` (source lines 54-72):

* `if not (bus_name and from_city and to_city)` — presence check on the three
  *untrimmed* text fields (`total_seats` is not part of it);
* `seats = int(float(total_seats))` — lenient numeric coercion; `ValueError` and
  `TypeError` are caught and reported as "not a valid number";
* `if seats <= 0` — positivity check;
* the `INSERT` stores the three strings `.strip()`-ed and raises
  `sqlite3.IntegrityError` when the stripped name violates `UNIQUE(bus_name)`.

The pair returned is (result message, database after the call). -/
def add_bus (db : DB) (bus_name from_city to_city : String) (total_seats : Value) :
    AddResult × DB :=
  if bus_name = "" ∨ from_city = "" ∨ to_city = "" then
    (AddResult.fieldsRequired, db)
  else
    match pyFloat total_seats with
    | .error _ => (AddResult.notValidNumber, db)
    | .ok x =>
      if ratTrunc x ≤ 0 then (AddResult.notPositive, db)
      else if db.buses.any (fun b => b.bus_name == (pyStrip bus_name)) then
        (AddResult.duplicateName, db)
      else
        (AddResult.added bus_name (ratTrunc x),
         { db with
             buses := db.buses ++
               [⟨db.nextBusId, (pyStrip bus_name), (pyStrip from_city), (pyStrip to_city), ratTrunc x⟩],
             nextBusId := db.nextBusId + 1 })

/-- The `SELECT id, total_seats FROM buses WHERE bus_name = ?` lookup of
`book_ticket` (and the spec's `find_by_name`): first row whose *stored* name
equals the given string exactly. -/
def find_by_name (db : DB) (bus_name : String) : Option Bus :=
  db.buses.find? (fun b => b.bus_name == bus_name)

/-- The possible return messages of `book_ticket`, one constructor per `return`
statement.  `uncaughtTypeError` models `int(None)` raising `TypeError`, which the
source's `except ValueError` does not catch; the presence check makes it
unreachable (`None` is falsy). -/
inductive BookResult where
  | fieldsRequired
  | seatNotInt
  | uncaughtTypeError
  | busNotFound
  | seatOutOfRange (total : Int)
  | booked (bus_name travel_date : String) (seat : Int)
  | alreadyBooked
deriving DecidableEq, Repr

/-- The exact strings returned by the Python `book_ticket` (the unreachable
uncaught `TypeError` has no return string; it is rendered as the traceback head). -/
def bookMessage : BookResult → String
  | .fieldsRequired => "❌ All fields are required."
  | .seatNotInt => "❌ Seat number must be an integer."
  | .uncaughtTypeError => "TypeError"
  | .busNotFound => "❌ Selected bus not found."
  | .seatOutOfRange total => s!"❌ Seat must be between 1 and {total}."
  | .booked bus_name travel_date seat =>
      s!"✅ Ticket booked on \x27{bus_name}\x27 for {travel_date}, Seat #{seat}."
  | .alreadyBooked => "❌ That seat is already booked on that date."

/-- Whether a `book_ticket` outcome is the success message. -/
def BookResult.isSuccess : BookResult → Bool
  | .booked _ _ _ => true
  | _ => false

/-- The spec's `ValidationError` class among `book_ticket` outcomes: missing
field, non-integer seat, out-of-range seat. -/
def BookResult.isValidationError : BookResult → Bool
  | .fieldsRequired => true
  | .seatNotInt => true
  | .seatOutOfRange _ => true
  | _ => false

/-- `book_ticket(passenger_name, bus_name, travel_date, seat_number)`
(source lines 81-105):

* `if not (passenger_name and bus_name and travel_date and seat_number)` —
  truthiness check on all four inputs (so a zero seat number is "missing");
* `seat = int(seat_number)` with `except ValueError` — a float is truncated,
  a non-integer string is rejected;
* bus lookup by the *raw* `bus_name`; range check `1 <= seat <= total_seats`;
* the `INSERT` stores `passenger_name.strip()` and `travel_date.strip()` and
  raises `sqlite3.IntegrityError` when `(bus_id, travel_date, seat_number)`
  violates the `UNIQUE` constraint. -/
def book_ticket (db : DB) (passenger_name bus_name travel_date : String)
    (seat_number : Value) : BookResult × DB :=
  if passenger_name = "" ∨ bus_name = "" ∨ travel_date = "" ∨ ¬ truthy seat_number then
    (BookResult.fieldsRequired, db)
  else
    match pyInt seat_number with
    | .error .valueError => (BookResult.seatNotInt, db)
    | .error .typeError => (BookResult.uncaughtTypeError, db)
    | .ok seat =>
      match find_by_name db bus_name with
      | none => (BookResult.busNotFound, db)
      | some bus =>
        if ¬(1 ≤ seat ∧ seat ≤ bus.total_seats) then
          (BookResult.seatOutOfRange bus.total_seats, db)
        else if db.tickets.any (fun t =>
            t.bus_id == bus.id && t.travel_date == (pyStrip travel_date)
              && t.seat_number == seat) then
          (BookResult.alreadyBooked, db)
        else
          (BookResult.booked bus_name travel_date seat,
           { db with
               tickets := db.tickets ++
                 [⟨db.nextTicketId, (pyStrip passenger_name), bus.id, (pyStrip travel_date), seat⟩],
               nextTicketId := db.nextTicketId + 1 })

/-- A row of the `view_bookings` query
`SELECT t.id, t.passenger_name, b.bus_name, t.travel_date, t.seat_number`. -/
structure BookingRow where
  ticket_id : Nat
  passenger_name : String
  bus_name : String
  travel_date : String
  seat_number : Int
deriving DecidableEq, Repr

/-- The inner join `FROM tickets t JOIN buses b ON t.bus_id = b.id`, in ticket
row order (bus `id` is the primary key, so `find?` picks the unique match). -/
def joinedRows (db : DB) : List BookingRow :=
  db.tickets.filterMap (fun t =>
    (db.buses.find? (fun b => b.id == t.bus_id)).map (fun b =>
      ⟨t.id, t.passenger_name, b.bus_name, t.travel_date, t.seat_number⟩))

/-- The comparison of `ORDER BY t.travel_date, b.bus_name, t.seat_number`:
lexicographic on the three keys (SQLite compares TEXT bytewise, which on valid
UTF-8 agrees with the code-point order underlying `String` comparison). -/
def rowLE (a b : BookingRow) : Prop :=
  a.travel_date < b.travel_date ∨
    (a.travel_date = b.travel_date ∧
      (a.bus_name < b.bus_name ∨
        (a.bus_name = b.bus_name ∧ a.seat_number ≤ b.seat_number)))

instance : DecidableRel rowLE := fun a b => by
  unfold rowLE
  infer_instance

instance : IsTotal BookingRow rowLE := by
  constructor
  intro a b
  rcases lt_trichotomy a.travel_date b.travel_date with hd | hd | hd
  · exact Or.inl (Or.inl hd)
  · rcases lt_trichotomy a.bus_name b.bus_name with hn | hn | hn
    · exact Or.inl (Or.inr ⟨hd, Or.inl hn⟩)
    · rcases Int.le_total a.seat_number b.seat_number with hs | hs
      · exact Or.inl (Or.inr ⟨hd, Or.inr ⟨hn, hs⟩⟩)
      · exact Or.inr (Or.inr ⟨hd.symm, Or.inr ⟨hn.symm, hs⟩⟩)
    · exact Or.inr (Or.inr ⟨hd.symm, Or.inl hn⟩)
  · exact Or.inr (Or.inl hd)

instance : IsTrans BookingRow rowLE := by
  constructor
  intro a b c hab hbc
  rcases hab with hab | ⟨hdab, hab⟩
  · rcases hbc with hbc | ⟨hdbc, _⟩
    · exact Or.inl (lt_trans hab hbc)
    · exact Or.inl (hdbc ▸ hab)
  · rcases hbc with hbc | ⟨hdbc, hbc⟩
    · exact Or.inl (hdab ▸ hbc)
    · refine Or.inr ⟨hdab.trans hdbc, ?_⟩
      rcases hab with hab | ⟨hnab, hab⟩
      · rcases hbc with hbc | ⟨hnbc, _⟩
        · exact Or.inl (lt_trans hab hbc)
        · exact Or.inl (hnbc ▸ hab)
      · rcases hbc with hbc | ⟨hnbc, hbc⟩
        · exact Or.inl (hnab ▸ hbc)
        · exact Or.inr ⟨hnab.trans hnbc, le_trans hab hbc⟩

/-- `view_bookings` (source lines 117-129): the join of every ticket with its
bus, sorted by the three-key `ORDER BY`. -/
def view_bookings (db : DB) : List BookingRow :=
  List.insertionSort rowLE (joinedRows db)

/-- One mutating operation of the system: an `add_bus` press or a
`book_ticket` press. -/
inductive Op where
  | addBus (bus_name from_city to_city : String) (total_seats : Value)
  | bookTicket (passenger_name bus_name travel_date : String) (seat_number : Value)

/-- The state after serving one operation (the message is displayed, only the
database persists). -/
def applyOp (db : DB) : Op → DB
  | .addBus n f t s => (add_bus db n f t s).2
  | .bookTicket p b d s => (book_ticket db p b d s).2

/-- The state reached from a fresh `bus_booking.db` by a sequence of operations. -/
def runOps (ops : List Op) : DB :=
  ops.foldl applyOp emptyDB

/-- The column triple of the `UNIQUE(bus_id, travel_date, seat_number)`
constraint of the `tickets` table. -/
def ticketKey (t : Ticket) : Nat × String × Int :=
  (t.bus_id, t.travel_date, t.seat_number)

/-- No two rows of a ticket list agree on the unique-constraint triple. -/
def UniqueKeys (l : List Ticket) : Prop :=
  l.Pairwise (fun a b => ticketKey a ≠ ticketKey b)

/-- The database satisfies the `tickets` table's unique constraint. -/
def UniqueTicketKeys (db : DB) : Prop :=
  UniqueKeys db.tickets

/-- The store after the spec's scenario step `add_bus("Express1","CityA","CityB",40)`
on a fresh database; used as concrete input in witnesses and counterexamples. -/
def dbExpress : DB :=
  ⟨[⟨1, "Express1", "CityA", "CityB", 40⟩], [], 2, 1⟩

/-! ## Helper lemmas -/

/-- Batteries' `Rat.floor` agrees with the `FloorRing` floor. -/
lemma ratFloor_eq_intFloor (q : Rat) : q.floor = ⌊q⌋ := by
  rw [Rat.floor_def', Rat.floor_def]

lemma one_le_ratTrunc {q : Rat} (h : 1 ≤ q) : 1 ≤ ratTrunc q := by
  have h0 : (0 : Rat) ≤ q := le_trans zero_le_one h
  unfold ratTrunc
  rw [if_pos h0, ratFloor_eq_intFloor]
  exact Int.le_floor.mpr (by exact_mod_cast h)

lemma ratTrunc_intCast (n : Int) : ratTrunc ((n : Int) : Rat) = n := by
  by_cases h : (0 : Rat) ≤ (n : Rat)
  · unfold ratTrunc
    rw [if_pos h, ratFloor_eq_intFloor, Int.floor_intCast]
  · unfold ratTrunc
    rw [if_neg h, ratFloor_eq_intFloor, ← Int.cast_neg, Int.floor_intCast, neg_neg]

lemma ratTrunc_zero : ratTrunc 0 = 0 := by
  simpa using ratTrunc_intCast 0

lemma ne_zero_of_one_le_ratTrunc {q : Rat} (h : 1 ≤ ratTrunc q) : q ≠ 0 := by
  intro h0
  rw [h0, ratTrunc_zero] at h
  omega

lemma pyStrip_ne_empty {s : String} (h : pyStrip s ≠ "") : s ≠ "" := by
  intro h0
  exact h (by rw [h0]; rfl)

/-- `add_bus` on a fully valid input: the characterisation of the success branch. -/
lemma add_bus_ok (db : DB) (n f t : String) (q : Rat)
    (hn : n ≠ "") (hf : f ≠ "") (ht : t ≠ "")
    (hpos : 0 < ratTrunc q)
    (hunused : ∀ b ∈ db.buses, b.bus_name ≠ (pyStrip n)) :
    add_bus db n f t (Value.num q) =
      (AddResult.added n (ratTrunc q),
       { db with
           buses := db.buses ++ [⟨db.nextBusId, (pyStrip n), (pyStrip f), (pyStrip t), ratTrunc q⟩],
           nextBusId := db.nextBusId + 1 }) := by
  have hnp : ¬ ratTrunc q ≤ 0 := by omega
  have hany : db.buses.any (fun b => b.bus_name == (pyStrip n)) = false := by
    rw [List.any_eq_false]
    intro b hb
    simpa using hunused b hb
  simp [add_bus, pyFloat, hn, hf, ht, hnp, hany]

/-- `add_bus` when the stripped name collides with a stored one (and everything
else is valid): the `sqlite3.IntegrityError` branch. -/
lemma add_bus_dup (db : DB) (n f t : String) (s : Value) (x : Rat)
    (hn : n ≠ "") (hf : f ≠ "") (ht : t ≠ "")
    (hok : pyFloat s = Except.ok x) (hpos : 0 < ratTrunc x)
    (hdup : ∃ b ∈ db.buses, b.bus_name = (pyStrip n)) :
    add_bus db n f t s = (AddResult.duplicateName, db) := by
  have hnp : ¬ ratTrunc x ≤ 0 := by omega
  have hany : db.buses.any (fun b => b.bus_name == (pyStrip n)) = true := by
    rw [List.any_eq_true]
    obtain ⟨b, hb, he⟩ := hdup
    exact ⟨b, hb, by simpa using he⟩
  simp [add_bus, hn, hf, ht, hok, hnp, hany]

/-- Every failing branch of `add_bus` returns the database unchanged. -/
lemma add_bus_cases (db : DB) (n f t : String) (s : Value) :
    (add_bus db n f t s).2 = db ∨ ((add_bus db n f t s).1).isSuccess = true := by
  unfold add_bus
  split
  · exact Or.inl rfl
  · split
    · exact Or.inl rfl
    · split
      · exact Or.inl rfl
      · split
        · exact Or.inl rfl
        · exact Or.inr rfl

/-- `book_ticket` with a truthy numeric seat on an existing bus, in range and not
yet taken: the characterisation of the success branch (`int()` truncates the
float toward zero). -/
lemma book_ticket_num_ok (db : DB) (p bn d : String) (q : Rat) (bus : Bus)
    (hp : p ≠ "") (hb : bn ≠ "") (hd : d ≠ "")
    (hbus : find_by_name db bn = some bus)
    (h1 : 1 ≤ ratTrunc q) (h2 : ratTrunc q ≤ bus.total_seats)
    (hfree : db.tickets.any (fun t =>
        t.bus_id == bus.id && t.travel_date == (pyStrip d)
          && t.seat_number == ratTrunc q) = false) :
    book_ticket db p bn d (Value.num q) =
      (BookResult.booked bn d (ratTrunc q),
       { db with
           tickets := db.tickets ++
             [⟨db.nextTicketId, (pyStrip p), bus.id, (pyStrip d), ratTrunc q⟩],
           nextTicketId := db.nextTicketId + 1 }) := by
  have hq : q ≠ 0 := ne_zero_of_one_le_ratTrunc h1
  have htr : truthy (Value.num q) := hq
  simp [book_ticket, pyInt, hp, hb, hd, htr, hbus, h1, h2, hfree]

/-- `book_ticket` with a truthy numeric seat on an existing bus, in range but
already taken: the `sqlite3.IntegrityError` branch. -/
lemma book_ticket_num_conflict (db : DB) (p bn d : String) (q : Rat) (bus : Bus)
    (hp : p ≠ "") (hb : bn ≠ "") (hd : d ≠ "")
    (hbus : find_by_name db bn = some bus)
    (h1 : 1 ≤ ratTrunc q) (h2 : ratTrunc q ≤ bus.total_seats)
    (htaken : db.tickets.any (fun t =>
        t.bus_id == bus.id && t.travel_date == (pyStrip d)
          && t.seat_number == ratTrunc q) = true) :
    book_ticket db p bn d (Value.num q) = (BookResult.alreadyBooked, db) := by
  have hq : q ≠ 0 := ne_zero_of_one_le_ratTrunc h1
  have htr : truthy (Value.num q) := hq
  simp [book_ticket, pyInt, hp, hb, hd, htr, hbus, h1, h2, htaken]

/-- Every failing branch of `book_ticket` returns the database unchanged. -/
lemma book_ticket_cases (db : DB) (p bn d : String) (s : Value) :
    (book_ticket db p bn d s).2 = db ∨ ((book_ticket db p bn d s).1).isSuccess = true := by
  unfold book_ticket
  split
  · exact Or.inl rfl
  · split
    · exact Or.inl rfl
    · exact Or.inl rfl
    · split
      · exact Or.inl rfl
      · split
        · exact Or.inl rfl
        · split
          · exact Or.inl rfl
          · exact Or.inr rfl

/-- `add_bus` never touches the `tickets` table. -/
lemma add_bus_tickets_eq (db : DB) (n f t : String) (s : Value) :
    ((add_bus db n f t s).2).tickets = db.tickets := by
  unfold add_bus
  split
  · rfl
  · split
    · rfl
    · split
      · rfl
      · split
        · rfl
        · rfl

lemma uniqueKeys_append (l : List Ticket) (tk : Ticket)
    (h : UniqueKeys l) (hfresh : ∀ t ∈ l, ticketKey t ≠ ticketKey tk) :
    UniqueKeys (l ++ [tk]) := by
  unfold UniqueKeys at *
  rw [List.pairwise_append]
  refine ⟨h, List.pairwise_singleton _ _, ?_⟩
  intro a ha b hb
  rw [List.mem_singleton] at hb
  subst hb
  exact hfresh a ha

/-- The `tickets` table after `book_ticket`: unchanged, or extended by one row
that failed the `UNIQUE` pre-check against every stored row. -/
lemma book_ticket_tickets_cases (db : DB) (p bn d : String) (s : Value) :
    ((book_ticket db p bn d s).2).tickets = db.tickets ∨
    ∃ tk : Ticket, ((book_ticket db p bn d s).2).tickets = db.tickets ++ [tk] ∧
      db.tickets.any (fun t => t.bus_id == tk.bus_id && t.travel_date == tk.travel_date
        && t.seat_number == tk.seat_number) = false := by
  unfold book_ticket
  split
  · exact Or.inl rfl
  · split
    · exact Or.inl rfl
    · exact Or.inl rfl
    · split
      · exact Or.inl rfl
      · split
        · exact Or.inl rfl
        · split
          · exact Or.inl rfl
          · refine Or.inr ⟨_, rfl, ?_⟩
            rename_i hany
            exact Bool.eq_false_iff.mpr hany

/-- The insert of `book_ticket` happens only behind the `UNIQUE` pre-check, so
the unique-key property of the `tickets` table is preserved. -/
lemma book_ticket_preserves_uniqueKeys (db : DB) (p bn d : String) (s : Value)
    (h : UniqueKeys db.tickets) :
    UniqueKeys ((book_ticket db p bn d s).2).tickets := by
  rcases book_ticket_tickets_cases db p bn d s with he | ⟨tk, he, hfresh⟩
  · rw [he]; exact h
  · rw [he]
    apply uniqueKeys_append _ _ h
    intro t ht hkey
    have h3 : t.bus_id = tk.bus_id ∧ t.travel_date = tk.travel_date
        ∧ t.seat_number = tk.seat_number := by
      simpa [ticketKey, Prod.ext_iff] using hkey
    have := List.any_eq_false.mp hfresh t ht
    exact this (by simp [h3.1, h3.2.1, h3.2.2])

/-- Every single operation preserves the unique-key property. -/
lemma applyOp_preserves_uniqueKeys (db : DB) (op : Op)
    (h : UniqueTicketKeys db) : UniqueTicketKeys (applyOp db op) := by
  cases op with
  | addBus n f t s =>
    unfold UniqueTicketKeys applyOp
    rw [add_bus_tickets_eq]
    exact h
  | bookTicket p b d s =>
    exact book_ticket_preserves_uniqueKeys db p b d s h

/-- `book_ticket_num_ok` specialised to an integer-valued seat number
(truncation is the identity there), with the freshness premise in
propositional form. -/
lemma book_ticket_int_ok (db : DB) (p bn d : String) (n : Int) (bus : Bus)
    (hp : p ≠ "") (hb : bn ≠ "") (hd : d ≠ "")
    (hbus : find_by_name db bn = some bus)
    (h1 : 1 ≤ n) (h2 : n ≤ bus.total_seats)
    (hfree : ∀ t ∈ db.tickets,
      ¬(t.bus_id = bus.id ∧ t.travel_date = pyStrip d ∧ t.seat_number = n)) :
    book_ticket db p bn d (Value.num ((n : Int) : Rat)) =
      (BookResult.booked bn d n,
       { db with
           tickets := db.tickets ++ [⟨db.nextTicketId, pyStrip p, bus.id, pyStrip d, n⟩],
           nextTicketId := db.nextTicketId + 1 }) := by
  have htn : ratTrunc ((n : Int) : Rat) = n := ratTrunc_intCast n
  have hfree' : db.tickets.any (fun t =>
      t.bus_id == bus.id && t.travel_date == pyStrip d
        && t.seat_number == ratTrunc ((n : Int) : Rat)) = false := by
    rw [List.any_eq_false]
    intro t ht
    have hcl := hfree t ht
    simp only [htn, Bool.and_eq_true, beq_iff_eq]
    tauto
  have E := book_ticket_num_ok db p bn d ((n : Int) : Rat) bus hp hb hd hbus
    (by rw [htn]; exact h1) (by rw [htn]; exact h2) hfree'
  simp only [htn] at E
  exact E

/-! ## The claims -/

/-- C1: for two `book_ticket` calls with identical `(bus_name, travel_date,
seat_number)` on an existing bus with the seat in range (and not yet taken),
the first call succeeds and the second fails with the conflict message,
leaving the store unchanged.  The passenger names `p1`, `p2` are arbitrary, so
the statement covers both arrival orders of the two competing calls. -/
theorem booking_conflict_order_independent (db : DB)
    (p1 p2 bus_name travel_date : String) (n : Int) (bus : Bus)
    (hp1 : p1 ≠ "") (hp2 : p2 ≠ "") (hb : bus_name ≠ "") (hd : travel_date ≠ "")
    (hbus : find_by_name db bus_name = some bus)
    (h1 : 1 ≤ n) (h2 : n ≤ bus.total_seats)
    (hfree : ∀ t ∈ db.tickets,
      ¬(t.bus_id = bus.id ∧ t.travel_date = pyStrip travel_date ∧ t.seat_number = n)) :
    (book_ticket db p1 bus_name travel_date (Value.num ((n : Int) : Rat))).1
        = BookResult.booked bus_name travel_date n ∧
    (book_ticket (book_ticket db p1 bus_name travel_date (Value.num ((n : Int) : Rat))).2
        p2 bus_name travel_date (Value.num ((n : Int) : Rat))).1
      = BookResult.alreadyBooked ∧
    (book_ticket (book_ticket db p1 bus_name travel_date (Value.num ((n : Int) : Rat))).2
        p2 bus_name travel_date (Value.num ((n : Int) : Rat))).2
      = (book_ticket db p1 bus_name travel_date (Value.num ((n : Int) : Rat))).2 := by
  have E := book_ticket_int_ok db p1 bus_name travel_date n bus hp1 hb hd hbus h1 h2 hfree
  have E2 : (book_ticket db p1 bus_name travel_date (Value.num ((n : Int) : Rat))).2
      = { db with
            tickets := db.tickets ++
              [⟨db.nextTicketId, pyStrip p1, bus.id, pyStrip travel_date, n⟩],
            nextTicketId := db.nextTicketId + 1 } := by rw [E]
  have hbus1 : find_by_name
      { db with
          tickets := db.tickets ++
            [⟨db.nextTicketId, pyStrip p1, bus.id, pyStrip travel_date, n⟩],
          nextTicketId := db.nextTicketId + 1 } bus_name = some bus := hbus
  have htaken : ({ db with
        tickets := db.tickets ++
          [⟨db.nextTicketId, pyStrip p1, bus.id, pyStrip travel_date, n⟩],
        nextTicketId := db.nextTicketId + 1 } : DB).tickets.any (fun t =>
      t.bus_id == bus.id && t.travel_date == pyStrip travel_date
        && t.seat_number == ratTrunc ((n : Int) : Rat)) = true := by
    simp only [ratTrunc_intCast]
    rw [List.any_append]
    simp
  have E3 := book_ticket_num_conflict _ p2 bus_name travel_date ((n : Int) : Rat) bus
    hp2 hb hd hbus1 (by rw [ratTrunc_intCast]; exact h1)
    (by rw [ratTrunc_intCast]; exact h2) htaken
  refine ⟨by rw [E], ?_, ?_⟩
  · rw [E2, E3]
  · rw [E2, E3]

/-- C1 witness: the spec's scenario — Alice books seat 5 on Express1 for
2024-05-01, then Bob's identical booking is rejected with the state unchanged. -/
theorem booking_conflict_order_independent_witness :
    (book_ticket dbExpress "Alice" "Express1" "2024-05-01" (Value.num ((5 : Int) : Rat))).1
        = BookResult.booked "Express1" "2024-05-01" 5 ∧
    (book_ticket (book_ticket dbExpress "Alice" "Express1" "2024-05-01"
          (Value.num ((5 : Int) : Rat))).2
        "Bob" "Express1" "2024-05-01" (Value.num ((5 : Int) : Rat))).1
      = BookResult.alreadyBooked ∧
    (book_ticket (book_ticket dbExpress "Alice" "Express1" "2024-05-01"
          (Value.num ((5 : Int) : Rat))).2
        "Bob" "Express1" "2024-05-01" (Value.num ((5 : Int) : Rat))).2
      = (book_ticket dbExpress "Alice" "Express1" "2024-05-01"
          (Value.num ((5 : Int) : Rat))).2 :=
  booking_conflict_order_independent dbExpress "Alice" "Bob" "Express1" "2024-05-01" 5
    ⟨1, "Express1", "CityA", "CityB", 40⟩
    (by decide) (by decide) (by decide) (by decide) (by decide) (by decide) (by decide)
    (by simp [dbExpress])

/-- C2: every state reachable from the empty store by `add_bus` / `book_ticket`
operations satisfies the `UNIQUE(bus_id, travel_date, seat_number)` invariant,
and every single operation preserves it. -/
theorem reachable_states_unique_keys :
    (∀ (db : DB) (op : Op), UniqueTicketKeys db → UniqueTicketKeys (applyOp db op)) ∧
    (∀ ops : List Op, UniqueTicketKeys (runOps ops)) := by
  have main : ∀ (l : List Op) (db : DB),
      UniqueTicketKeys db → UniqueTicketKeys (l.foldl applyOp db) := by
    intro l
    induction l with
    | nil => exact fun db h => h
    | cons o rest ih => exact fun db h => ih _ (applyOp_preserves_uniqueKeys db o h)
  exact ⟨applyOp_preserves_uniqueKeys, fun ops => main ops emptyDB List.Pairwise.nil⟩

/-- C2 witness: the preservation half applied to the empty store and one
concrete booking operation. -/
theorem reachable_states_unique_keys_witness :
    UniqueTicketKeys (applyOp emptyDB
      (Op.bookTicket "Alice" "Express1" "2024-05-01" (Value.num 5))) :=
  reachable_states_unique_keys.1 emptyDB
    (Op.bookTicket "Alice" "Express1" "2024-05-01" (Value.num 5)) List.Pairwise.nil

/-- C3: on an existing bus of capacity `C ≥ 1`, with valid passenger and date,
`book_ticket` succeeds for every free seat in `[1, C]`, and fails with a
`ValidationError`-class message for seat 0 (the truthiness check treats `0` as
missing) and for seat `C + 1` (the range check). -/
theorem seat_range_endpoints (db : DB) (p bus_name travel_date : String) (bus : Bus)
    (hp : p ≠ "") (hb : bus_name ≠ "") (hd : travel_date ≠ "")
    (hbus : find_by_name db bus_name = some bus) (hcap : 1 ≤ bus.total_seats) :
    (∀ n : Int, 1 ≤ n → n ≤ bus.total_seats →
      (∀ t ∈ db.tickets,
        ¬(t.bus_id = bus.id ∧ t.travel_date = pyStrip travel_date ∧ t.seat_number = n)) →
      (book_ticket db p bus_name travel_date (Value.num ((n : Int) : Rat))).1
        = BookResult.booked bus_name travel_date n) ∧
    ((book_ticket db p bus_name travel_date (Value.num ((0 : Int) : Rat))).1).isValidationError
      = true ∧
    ((book_ticket db p bus_name travel_date
        (Value.num ((bus.total_seats + 1 : Int) : Rat))).1).isValidationError = true := by
  refine ⟨?_, ?_, ?_⟩
  · intro n h1 h2 hfree
    rw [book_ticket_int_ok db p bus_name travel_date n bus hp hb hd hbus h1 h2 hfree]
  · simp [book_ticket, truthy, BookResult.isValidationError]
  · have hq : ratTrunc ((bus.total_seats + 1 : Int) : Rat) = bus.total_seats + 1 :=
      ratTrunc_intCast _
    have htr : truthy (Value.num ((bus.total_seats + 1 : Int) : Rat)) := by
      intro hc
      have h0 : bus.total_seats + 1 = 0 := by exact_mod_cast hc
      omega
    have hc1 : ¬(p = "" ∨ bus_name = "" ∨ travel_date = ""
        ∨ ¬ truthy (Value.num ((bus.total_seats + 1 : Int) : Rat))) := by
      push_neg
      exact ⟨hp, hb, hd, htr⟩
    have hrange : ¬(1 ≤ bus.total_seats + 1 ∧ bus.total_seats + 1 ≤ bus.total_seats) := by
      omega
    simp only [book_ticket, pyInt, hq, hbus]
    rw [if_neg hc1, if_pos hrange]
    rfl

/-- C3 witness: on the 40-seat Express1, seat 7 (free) books, seat 0 and
seat 41 are rejected as validation errors. -/
theorem seat_range_endpoints_witness :
    (1 : Int) ≤ 7 ∧ (7 : Int) ≤ 40 ∧
    ((book_ticket dbExpress "Alice" "Express1" "2024-05-01"
        (Value.num ((7 : Int) : Rat))).1 = BookResult.booked "Express1" "2024-05-01" 7) ∧
    ((book_ticket dbExpress "Alice" "Express1" "2024-05-01"
        (Value.num ((0 : Int) : Rat))).1).isValidationError = true ∧
    ((book_ticket dbExpress "Alice" "Express1" "2024-05-01"
        (Value.num ((40 + 1 : Int) : Rat))).1).isValidationError = true := by
  have h := seat_range_endpoints dbExpress "Alice" "Express1" "2024-05-01"
    ⟨1, "Express1", "CityA", "CityB", 40⟩
    (by decide) (by decide) (by decide) (by decide) (by decide)
  exact ⟨by decide, by decide,
    h.1 7 (by decide) (by decide) (by simp [dbExpress]), h.2.1, h.2.2⟩

/-- C4 counterexample: a whitespace-only bus name is *not* rejected — the
presence check `if not (bus_name and ...)` tests the untrimmed string, so
`add_bus(" ", "CityA", "CityB", 5)` succeeds and inserts a bus whose stored
name is the empty string, contradicting "empty after trimming whitespace
... fails with ValidationError ... no Bus row is inserted". -/
theorem add_bus_whitespace_name_cex :
    ((add_bus emptyDB " " "CityA" "CityB" (Value.num 5)).1).isValidationError = false ∧
    (add_bus emptyDB " " "CityA" "CityB" (Value.num 5)).1 = AddResult.added " " 5 ∧
    ((add_bus emptyDB " " "CityA" "CityB" (Value.num 5)).2).buses
      = [⟨1, "", "CityA", "CityB", 5⟩] := by
  decide

/-- C4 amended: `add_bus` fails with a `ValidationError`-class message and
inserts nothing whenever one of name/origin/destination is the *empty string*
(the untrimmed presence check), or the capacity is missing (`None`) or the
empty string; a whitespace-only text field passes the presence check. -/
theorem add_bus_empty_field_validation (db : DB) (n f t : String) (s : Value)
    (h : n = "" ∨ f = "" ∨ t = "" ∨ s = Value.pynone ∨ s = Value.str "") :
    ((add_bus db n f t s).1).isValidationError = true ∧ (add_bus db n f t s).2 = db := by
  by_cases hfields : n = "" ∨ f = "" ∨ t = ""
  · refine ⟨?_, ?_⟩
    · unfold add_bus
      rw [if_pos hfields]
      rfl
    · unfold add_bus
      rw [if_pos hfields]
  · have hs : s = Value.pynone ∨ s = Value.str "" := by tauto
    push_neg at hfields
    have he : pyFloat s = Except.error PyErr.typeError
        ∨ pyFloat s = Except.error PyErr.valueError := by
      rcases hs with rfl | rfl
      · exact Or.inl rfl
      · exact Or.inr rfl
    rcases he with he | he <;>
      simp [add_bus, hfields.1, hfields.2.1, hfields.2.2, he, AddResult.isValidationError]

/-- C4 amended witness: empty origin is rejected with no insertion. -/
theorem add_bus_empty_field_validation_witness :
    ((add_bus emptyDB "Express1" "" "CityB" (Value.num 4)).1).isValidationError = true ∧
    (add_bus emptyDB "Express1" "" "CityB" (Value.num 4)).2 = emptyDB :=
  add_bus_empty_field_validation emptyDB "Express1" "" "CityB" (Value.num 4)
    (Or.inr (Or.inl rfl))

/-- C5 counterexample: `seat = int(seat_number)` truncates a fractional float
instead of raising `ValueError` — booking with seat number 3.5 on the 40-seat
Express1 succeeds and inserts a ticket for seat 3, contradicting "fails with
ValidationError ... inserting no ticket". -/
theorem book_fractional_seat_cex :
    (book_ticket dbExpress "Alice" "Express1" "2024-05-01"
        (Value.num (Rat.divInt 7 2))).1 = BookResult.booked "Express1" "2024-05-01" 3 ∧
    ((book_ticket dbExpress "Alice" "Express1" "2024-05-01"
        (Value.num (Rat.divInt 7 2))).1).isValidationError = false ∧
    ((book_ticket dbExpress "Alice" "Express1" "2024-05-01"
        (Value.num (Rat.divInt 7 2))).2).tickets = [⟨1, "Alice", 1, "2024-05-01", 3⟩] := by
  decide

/-- C5 amended: a fractional numeric `seat_number` is truncated toward zero by
`int()` rather than rejected: whenever the truncation lands on a free in-range
seat of an existing bus, the booking succeeds with the truncated seat and no
`ValidationError` is reported.  (The `ValueError` branch is reachable only for
string input that does not parse as an integer.) -/
theorem book_fractional_seat_truncates (db : DB) (p bus_name travel_date : String)
    (q : Rat) (bus : Bus)
    (hp : p ≠ "") (hb : bus_name ≠ "") (hd : travel_date ≠ "") (hfrac : q.den ≠ 1)
    (hbus : find_by_name db bus_name = some bus)
    (h1 : 1 ≤ ratTrunc q) (h2 : ratTrunc q ≤ bus.total_seats)
    (hfree : db.tickets.any (fun t =>
      t.bus_id == bus.id && t.travel_date == pyStrip travel_date
        && t.seat_number == ratTrunc q) = false) :
    (book_ticket db p bus_name travel_date (Value.num q)).1
      = BookResult.booked bus_name travel_date (ratTrunc q) ∧
    ((book_ticket db p bus_name travel_date (Value.num q)).1).isValidationError = false := by
  have E := book_ticket_num_ok db p bus_name travel_date q bus hp hb hd hbus h1 h2 hfree
  rw [E]
  exact ⟨rfl, rfl⟩

/-- C5 amended witness: seat 3.5 books seat 3 on Express1. -/
theorem book_fractional_seat_truncates_witness :
    (book_ticket dbExpress "Alice" "Express1" "2024-05-01"
        (Value.num (Rat.divInt 7 2))).1
      = BookResult.booked "Express1" "2024-05-01" (ratTrunc (Rat.divInt 7 2)) ∧
    ((book_ticket dbExpress "Alice" "Express1" "2024-05-01"
        (Value.num (Rat.divInt 7 2))).1).isValidationError = false :=
  book_fractional_seat_truncates dbExpress "Alice" "Express1" "2024-05-01"
    (Rat.divInt 7 2) ⟨1, "Express1", "CityA", "CityB", 40⟩
    (by decide) (by decide) (by decide) (by decide) (by decide) (by decide) (by decide)
    (by decide)

/-- C6: `seats = int(float(total_seats))` truncates — a fractional numeric
capacity `q ≥ 1` (with non-empty fields and an unused stripped name) is
accepted and the bus is stored with capacity `trunc(q)`, not rejected. -/
theorem add_bus_fractional_capacity_truncates (db : DB)
    (bus_name from_city to_city : String) (q : Rat)
    (hn : bus_name ≠ "") (hf : from_city ≠ "") (ht : to_city ≠ "")
    (hq : 1 ≤ q) (hfrac : q.den ≠ 1)
    (hunused : ∀ b ∈ db.buses, b.bus_name ≠ pyStrip bus_name) :
    add_bus db bus_name from_city to_city (Value.num q) =
      (AddResult.added bus_name (ratTrunc q),
       { db with
           buses := db.buses ++
             [⟨db.nextBusId, pyStrip bus_name, pyStrip from_city, pyStrip to_city,
               ratTrunc q⟩],
           nextBusId := db.nextBusId + 1 }) :=
  add_bus_ok db bus_name from_city to_city q hn hf ht
    (by have := one_le_ratTrunc hq; omega) hunused

/-- C6 witness: capacity 2.5 stores a 2-seat bus. -/
theorem add_bus_fractional_capacity_truncates_witness :
    add_bus emptyDB "Express1" "CityA" "CityB" (Value.num (Rat.divInt 5 2)) =
      (AddResult.added "Express1" 2,
       ⟨[⟨1, "Express1", "CityA", "CityB", 2⟩], [], 2, 1⟩) := by
  have h := add_bus_fractional_capacity_truncates emptyDB "Express1" "CityA" "CityB"
    (Rat.divInt 5 2) (by decide) (by decide) (by decide) (by decide) (by decide)
    (fun b hb => absurd hb (List.not_mem_nil b))
  rw [h]
  decide

/-- C7: for every store state, `view_bookings` is sorted ascending by the
three-key order `(travel_date, bus_name, seat_number)` and is a permutation of
the ticket-bus join — regardless of insertion order. -/
theorem view_bookings_sorted_join (db : DB) :
    List.Sorted rowLE (view_bookings db) ∧ List.Perm (view_bookings db) (joinedRows db) :=
  ⟨List.sorted_insertionSort rowLE (joinedRows db),
   List.perm_insertionSort rowLE (joinedRows db)⟩

/-- C8 counterexample: `add_bus` with an already-existing name but an empty
origin fails with the all-fields-required message, not the duplicate-name
message — the presence check fires before the `UNIQUE` constraint, so
"a name that already exists always fails with DuplicateNameError" is false. -/
theorem duplicate_name_not_always_duplicate_cex :
    (add_bus dbExpress "Express1" "" "CityB" (Value.num 5)).1 = AddResult.fieldsRequired ∧
    (add_bus dbExpress "Express1" "" "CityB" (Value.num 5)).1 ≠ AddResult.duplicateName ∧
    (∃ b ∈ dbExpress.buses, b.bus_name = pyStrip "Express1") := by
  refine ⟨by decide, by decide, ⟨⟨1, "Express1", "CityA", "CityB", 40⟩, by decide, by decide⟩⟩

/-- C8 amended: every failure of `add_bus` or `book_ticket` leaves the store
exactly unchanged, and `add_bus` with an already-stored name and *otherwise
valid* inputs fails with the duplicate-name message, store unchanged. -/
theorem failures_preserve_state :
    (∀ (db : DB) (n f t : String) (s : Value),
      ((add_bus db n f t s).1).isSuccess = false → (add_bus db n f t s).2 = db) ∧
    (∀ (db : DB) (p bn d : String) (s : Value),
      ((book_ticket db p bn d s).1).isSuccess = false → (book_ticket db p bn d s).2 = db) ∧
    (∀ (db : DB) (n f t : String) (s : Value) (x : Rat),
      n ≠ "" → f ≠ "" → t ≠ "" → pyFloat s = Except.ok x → 0 < ratTrunc x →
      (∃ b ∈ db.buses, b.bus_name = pyStrip n) →
      add_bus db n f t s = (AddResult.duplicateName, db)) := by
  refine ⟨?_, ?_, ?_⟩
  · intro db n f t s h
    rcases add_bus_cases db n f t s with he | hs
    · exact he
    · rw [h] at hs
      cases hs
  · intro db p bn d s h
    rcases book_ticket_cases db p bn d s with he | hs
    · exact he
    · rw [h] at hs
      cases hs
  · intro db n f t s x hn hf ht hok hpos hdup
    exact add_bus_dup db n f t s x hn hf ht hok hpos hdup

/-- C8 witness: a failing `add_bus` (empty name), a failing `book_ticket`
(unknown bus) and a duplicate-name `add_bus` all leave the store unchanged,
the last with the duplicate-name message. -/
theorem failures_preserve_state_witness :
    (add_bus emptyDB "" "CityA" "CityB" (Value.num 4)).2 = emptyDB ∧
    (book_ticket emptyDB "Alice" "Ghost" "2024-05-01" (Value.num 5)).2 = emptyDB ∧
    add_bus dbExpress "Express1" "CityX" "CityY" (Value.num 7)
      = (AddResult.duplicateName, dbExpress) :=
  ⟨failures_preserve_state.1 emptyDB "" "CityA" "CityB" (Value.num 4) (by decide),
   failures_preserve_state.2.1 emptyDB "Alice" "Ghost" "2024-05-01" (Value.num 5) (by decide),
   failures_preserve_state.2.2 dbExpress "Express1" "CityX" "CityY" (Value.num 7) 7
     (by decide) (by decide) (by decide) rfl (by decide)
     ⟨⟨1, "Express1", "CityA", "CityB", 40⟩, by decide, by decide⟩⟩

/-- C9 counterexample: the stored fields are `.strip()`-ed, so with a padded
origin `" CityA "` the bus returned by the exact-match lookup carries
`"CityA"`, not the field that was passed in — the claim's "equal exactly the
fields that were passed in" fails. -/
theorem add_bus_untrimmed_fields_cex :
    (add_bus emptyDB "Express1" " CityA " "CityB" (Value.num 40)).1
      = AddResult.added "Express1" 40 ∧
    find_by_name ((add_bus emptyDB "Express1" " CityA " "CityB" (Value.num 40)).2)
        "Express1" = some ⟨1, "Express1", "CityA", "CityB", 40⟩ ∧
    "CityA" ≠ " CityA " := by
  decide

/-- C9 amended: for valid inputs (fields non-empty after stripping, capacity
truncating to a positive integer) whose *stripped* name is unused, `add_bus`
succeeds and an exact-match lookup of the *stripped* name returns a bus whose
fields are the *stripped* name/origin/destination and the truncated capacity. -/
theorem add_bus_then_find_stripped (db : DB)
    (bus_name from_city to_city : String) (q : Rat)
    (hn : pyStrip bus_name ≠ "") (hf : pyStrip from_city ≠ "")
    (ht : pyStrip to_city ≠ "") (hpos : 0 < ratTrunc q)
    (hunused : ∀ b ∈ db.buses, b.bus_name ≠ pyStrip bus_name) :
    ((add_bus db bus_name from_city to_city (Value.num q)).1).isSuccess = true ∧
    find_by_name ((add_bus db bus_name from_city to_city (Value.num q)).2)
        (pyStrip bus_name)
      = some ⟨db.nextBusId, pyStrip bus_name, pyStrip from_city, pyStrip to_city,
          ratTrunc q⟩ := by
  have E := add_bus_ok db bus_name from_city to_city q (pyStrip_ne_empty hn)
    (pyStrip_ne_empty hf) (pyStrip_ne_empty ht) hpos hunused
  rw [E]
  refine ⟨rfl, ?_⟩
  show (db.buses ++
      [(⟨db.nextBusId, pyStrip bus_name, pyStrip from_city, pyStrip to_city,
        ratTrunc q⟩ : Bus)]).find? (fun b => b.bus_name == pyStrip bus_name) = _
  rw [List.find?_append]
  have h1 : db.buses.find? (fun b => b.bus_name == pyStrip bus_name) = none := by
    rw [List.find?_eq_none]
    intro b hb
    simpa using hunused b hb
  rw [h1, Option.none_or]
  rw [List.find?_cons_of_pos _ (by simp)]

/-- C9 amended witness: padded name and origin are stripped; lookup of the
stripped name returns the stripped bus. -/
theorem add_bus_then_find_stripped_witness :
    ((add_bus emptyDB " Express1 " " CityA " "CityB" (Value.num 40)).1).isSuccess
      = true ∧
    find_by_name ((add_bus emptyDB " Express1 " " CityA " "CityB" (Value.num 40)).2)
        (pyStrip " Express1 ")
      = some ⟨1, pyStrip " Express1 ", pyStrip " CityA ", pyStrip "CityB",
          ratTrunc 40⟩ :=
  add_bus_then_find_stripped emptyDB " Express1 " " CityA " "CityB" 40
    (by decide) (by decide) (by decide) (by decide)
    (fun b hb => absurd hb (List.not_mem_nil b))

/-- C10: with the three text fields present but the capacity missing (`None`)
or empty, `add_bus` returns the numeric-validity message "Total seats must be
a valid number" — not the all-fields-required message, because `total_seats`
is excluded from the presence check — and inserts nothing. -/
theorem missing_capacity_numeric_error (db : DB) (n f t : String)
    (hn : n ≠ "") (hf : f ≠ "") (ht : t ≠ "") :
    add_bus db n f t Value.pynone = (AddResult.notValidNumber, db) ∧
    add_bus db n f t (Value.str "") = (AddResult.notValidNumber, db) ∧
    addMessage AddResult.notValidNumber = "❌ Total seats must be a valid number." ∧
    AddResult.notValidNumber ≠ AddResult.fieldsRequired := by
  refine ⟨?_, ?_, rfl, by decide⟩
  · simp [add_bus, hn, hf, ht, pyFloat]
  · have he : pyFloat (Value.str "") = Except.error PyErr.valueError := rfl
    simp [add_bus, hn, hf, ht, he]

/-- C10 witness. -/
theorem missing_capacity_numeric_error_witness :
    add_bus emptyDB "Express1" "CityA" "CityB" Value.pynone
      = (AddResult.notValidNumber, emptyDB) ∧
    add_bus emptyDB "Express1" "CityA" "CityB" (Value.str "")
      = (AddResult.notValidNumber, emptyDB) ∧
    addMessage AddResult.notValidNumber = "❌ Total seats must be a valid number." ∧
    AddResult.notValidNumber ≠ AddResult.fieldsRequired :=
  missing_capacity_numeric_error emptyDB "Express1" "CityA" "CityB"
    (by decide) (by decide) (by decide)

end BusBooking
